import Mathlib

/-!
Verification of the artifact-search core (`src/artifact_search`): a shallow
embedding of the data model (`models.py`), the query router (`router.py`),
the orchestrator (`search.py`) and the Figma connector's retry loop
(`connectors/figma.py`), together with theorems settling the spec's claims.

Conventions of the embedding:
* Python exceptions are modelled with `Except`: a function that can let an
  exception escape returns `Except PyError _`; a function whose body catches
  every exception (`except Exception`) is total.
* `datetime` values are modelled as `Int` ordinals: the only operation the
  code performs on them is comparison.
* The external collaborators (the Azure AI classification call, the Azure AI
  summarization call, each connector's network search) are oracles passed in
  as parameters; the code under verification is the control flow around them.
-/

namespace ArtifactSearch

/-- Model of `models.py` `AppSource`: closed enumeration of backend systems. -/
inductive AppSource where
  | azure_devops
  | figma
  | notion
  | icepanel
  deriving DecidableEq, Repr

/-- Values of `AppSource.value`, as used by `AppSource(app)` membership checks. -/
def AppSource.value : AppSource → String
  | .azure_devops => "azure_devops"
  | .figma => "figma"
  | .notion => "notion"
  | .icepanel => "icepanel"

/-- Model of `list(AppSource)`: declaration order of the enumeration members. -/
def AppSource.all : List AppSource :=
  [.azure_devops, .figma, .notion, .icepanel]

/-- Model of `models.py` `ArtifactType`: closed enumeration of artifact kinds. -/
inductive ArtifactType where
  | requirement
  | risk
  | mitigation
  | design
  | architecture
  | work_item
  | test_case
  | document
  deriving DecidableEq, Repr

/-- Values of `ArtifactType.value`. -/
def ArtifactType.value : ArtifactType → String
  | .requirement => "requirement"
  | .risk => "risk"
  | .mitigation => "mitigation"
  | .design => "design"
  | .architecture => "architecture"
  | .work_item => "work_item"
  | .test_case => "test_case"
  | .document => "document"

/-- Model of `AppSource(app)` guarded by `app in [s.value for s in AppSource]`:
yields the member whose `value` equals the string, if any. -/
def appSourceOfString (s : String) : Option AppSource :=
  AppSource.all.find? (fun a => a.value = s)

/-- Model of `list(ArtifactType)` in declaration order. -/
def ArtifactType.all : List ArtifactType :=
  [.requirement, .risk, .mitigation, .design, .architecture, .work_item,
   .test_case, .document]

/-- Model of `ArtifactType(at)` guarded by membership in the enumeration values. -/
def artifactTypeOfString (s : String) : Option ArtifactType :=
  ArtifactType.all.find? (fun a => a.value = s)

/-- Model of `models.py` `SearchQuery`: pydantic imposes no constraint on `query`
beyond it being a string, so construction is total.  The free-form
`context` mapping is never read by the core and is omitted. -/
structure SearchQuery where
  query : String
  deriving DecidableEq, Repr

/-- Model of `models.py` `RoutedQuery`.  The free-form `filters` mapping is modelled
as an association list (the core only ever constructs it empty). -/
structure RoutedQuery where
  original_query : String
  target_apps : List AppSource
  artifact_types : List ArtifactType
  search_terms : List String
  filters : List (String × String) := []
  deriving DecidableEq, Repr

/-- Model of `models.py` `Artifact`.  `created_at`/`updated_at` are `datetime | None`,
modelled as `Option Int` ordinals (the code only compares them);
`metadata` is an association list. -/
structure Artifact where
  id : String
  source : AppSource
  artifact_type : ArtifactType
  title : String
  content : String
  url : Option String := none
  metadata : List (String × String) := []
  created_at : Option Int := none
  updated_at : Option Int := none
  deriving DecidableEq, Repr

/-- Model of `models.py` `SearchResult`.  `search_duration_ms` is wall-clock time
measured at run time; it carries no program logic and is omitted from the
embedding. -/
structure SearchResult where
  query : String
  artifacts : List Artifact
  sources_searched : List AppSource
  total_results : Nat
  summary : Option String := none
  deriving DecidableEq, Repr

/-! ### Python string primitives used by the router -/

/-- Python `str.split()` with no argument: split on runs of whitespace,
dropping empty pieces.  `acc` holds the reversed characters of the token
being read. -/
def pySplitChars : List Char → List Char → List String
  | [], acc => if acc.isEmpty then [] else [String.mk acc.reverse]
  | c :: cs, acc =>
    if c.isWhitespace then
      (if acc.isEmpty then [] else [String.mk acc.reverse]) ++ pySplitChars cs []
    else
      pySplitChars cs (c :: acc)

/-- Python `str.split()` with no argument. -/
def pySplit (s : String) : List String :=
  pySplitChars s.data []

/-- Python `needle in hay` on strings: contiguous-substring containment
over the sequence of characters. -/
def strContains (hay needle : String) : Bool :=
  go needle.data hay.data
where
  isPre : List Char → List Char → Bool
    | [], _ => true
    | _ :: _, [] => false
    | a :: as, b :: bs => a == b && isPre as bs
  go (nd : List Char) : List Char → Bool
    | [] => nd.isEmpty
    | b :: bs => isPre nd (b :: bs) || go nd bs

/-- Python `str.lower()` (faithful on the ASCII strings the router's keyword
lists use). -/
def pyLower (s : String) : String :=
  String.mk (s.data.map Char.toLower)

/-- Python `list(dict.fromkeys(l))`: drop duplicates keeping the first
occurrence, preserving order. -/
def dedupFirst {α : Type} [DecidableEq α] : List α → List α :=
  go []
where
  go (seen : List α) : List α → List α
    | [] => []
    | a :: l => if a ∈ seen then go seen l else a :: go (a :: seen) l

/-! ### `router.py` -/

/-- The outcome of the remote classification call in `route_query`, as the
code observes it after `json.loads`:
* `failure`: the call or the parse raised (network error, malformed JSON,
  ill-typed fields) — everything the `except Exception` catches;
* `empty`: the call succeeded but `response.choices[0].message.content`
  was `None` or `""`;
* `parsed`: the call succeeded and the JSON object's `target_apps`,
  `artifact_types` and `search_terms` string lists (each defaulting to
  `[]` when absent). -/
inductive RemoteClassification where
  | failure
  | empty
  | parsed (target_apps artifact_types search_terms : List String)
  deriving DecidableEq, Repr

/-- Model of `router.py` `_fallback_route` lines 134-168: the raw `target_apps` list
built by the keyword scan, before the empty-default and the dedup. -/
def fallbackRawAppsScan (ql : String) : List AppSource :=
  (if ["design", "ui", "ux", "wireframe", "mockup"].any (strContains ql) then
    [.figma] else []) ++
  (if ["architecture", "system", "component", "c4", "diagram"].any (strContains ql) then
    [.icepanel] else []) ++
  (if ["risk", "hazard", "harm", "severity"].any (strContains ql) then
    [.azure_devops, .notion] else []) ++
  (if ["mitigation", "control", "measure", "protection"].any (strContains ql) then
    [.azure_devops, .notion] else []) ++
  (if ["requirement", "req", "story", "feature"].any (strContains ql) then
    [.azure_devops, .notion] else []) ++
  (if ["document", "sop", "procedure", "policy"].any (strContains ql) then
    [.notion] else []) ++
  (if ["task", "bug", "sprint", "work item"].any (strContains ql) then
    [.azure_devops] else [])

/-- Raw `artifact_types` list of `_fallback_route` from the same keyword
scan, before the empty-default and the dedup. -/
def fallbackRawTypesScan (ql : String) : List ArtifactType :=
  (if ["design", "ui", "ux", "wireframe", "mockup"].any (strContains ql) then
    [.design] else []) ++
  (if ["architecture", "system", "component", "c4", "diagram"].any (strContains ql) then
    [.architecture] else []) ++
  (if ["risk", "hazard", "harm", "severity"].any (strContains ql) then
    [.risk] else []) ++
  (if ["mitigation", "control", "measure", "protection"].any (strContains ql) then
    [.mitigation] else []) ++
  (if ["requirement", "req", "story", "feature"].any (strContains ql) then
    [.requirement] else []) ++
  (if ["document", "sop", "procedure", "policy"].any (strContains ql) then
    [.document] else []) ++
  (if ["task", "bug", "sprint", "work item"].any (strContains ql) then
    [.work_item] else [])

/-- List `target_apps` after the empty-default (`list(AppSource)`), the input to
the dedup. -/
def fallbackRawApps (ql : String) : List AppSource :=
  let raw := fallbackRawAppsScan ql
  if raw = [] then AppSource.all else raw

/-- List `artifact_types` after the empty-default, the input to the dedup. -/
def fallbackRawTypes (ql : String) : List ArtifactType :=
  let raw := fallbackRawTypesScan ql
  if raw = [] then [.document, .requirement] else raw

/-- Fixed stop-word set of `_fallback_route` lines 177-181. -/
def stop_words : List String :=
  ["the", "a", "an", "is", "are", "what", "where", "how", "can", "you",
   "get", "me", "find", "show", "related", "to", "this", "that", "for",
   "in", "on", "with"]

/-- Search-term extraction: split the raw query, drop stop words and tokens
of length ≤ 2, keep at most 5. -/
def fallbackTerms (q : String) : List String :=
  ((pySplit q).filter
    (fun w => decide (pyLower w ∉ stop_words) && decide (w.length > 2))).take 5

/-- Model of `router.py` `_fallback_route`: deterministic keyword routing. -/
def fallback_route (query : SearchQuery) : RoutedQuery :=
  let ql := pyLower query.query
  let terms := fallbackTerms query.query
  { original_query := query.query
    target_apps := dedupFirst (fallbackRawApps ql)
    artifact_types := dedupFirst (fallbackRawTypes ql)
    search_terms := if terms = [] then ["risk", "requirement"] else terms }

/-- Model of `router.py` `route_query`.  `azureConfigured` is
`settings.is_azure_ai_configured()`; `remote` is the oracle for the remote
classification call.  The second component records whether a network call
was attempted.  The Python body wraps the whole remote path in
`try/except Exception` falling back to `_fallback_route`, so the function is
total: no exception reaches the caller. -/
def route_query (azureConfigured : Bool) (remote : RemoteClassification)
    (query : SearchQuery) : RoutedQuery × Bool :=
  if !azureConfigured then
    (fallback_route query, false)
  else
    match remote with
    | .failure => (fallback_route query, true)
    | .empty => (fallback_route query, true)
    | .parsed apps types terms =>
      let target_apps := apps.filterMap appSourceOfString
      let artifact_types := types.filterMap artifactTypeOfString
      let target_apps :=
        if target_apps = [] then [.azure_devops, .notion] else target_apps
      let artifact_types :=
        if artifact_types = [] then [.document] else artifact_types
      let search_terms :=
        if terms = [] then (pySplit query.query).take 5 else terms
      ({ original_query := query.query
         target_apps := target_apps
         artifact_types := artifact_types
         search_terms := search_terms }, true)

/-! ### `search.py`: merge, rank, summarize, orchestrate -/

/-- Exceptions that can escape the orchestrator. -/
inductive PyError where
  | typeError
  deriving DecidableEq, Repr

/-- The value of the sort key `a.updated_at or a.created_at or ""`:
either a `datetime` (always truthy in Python 3) or the string `""`. -/
inductive SortKey where
  | dt (t : Int)
  | str (s : String)
  deriving DecidableEq, Repr

/-- The key lambda of `search.py` line 101. -/
def effectiveKey (a : Artifact) : SortKey :=
  match a.updated_at with
  | some t => .dt t
  | none =>
    match a.created_at with
    | some t => .dt t
    | none => .str ""

/-- Python `<` on sort keys: defined within each type, a `TypeError` across
types (`'<' not supported between instances of 'str' and
'datetime.datetime'`). -/
def pyKeyLt : SortKey → SortKey → Except PyError Bool
  | .dt a, .dt b => .ok (decide (a < b))
  | .str a, .str b => .ok (decide (a < b))
  | _, _ => .error .typeError

/-- Stable ascending insertion of one artifact: placed before the first
strictly greater element, after equals; any cross-type key comparison
raises. -/
def insertAsc (x : Artifact) : List Artifact → Except PyError (List Artifact)
  | [] => .ok [x]
  | y :: ys =>
    match pyKeyLt (effectiveKey x) (effectiveKey y) with
    | .error e => .error e
    | .ok true => .ok (x :: y :: ys)
    | .ok false =>
      match insertAsc x ys with
      | .error e => .error e
      | .ok r => .ok (y :: r)

/-- Stable ascending comparison sort (left fold of `insertAsc`), stopping
at the first raised comparison error. -/
def sortAsc : List Artifact → Except PyError (List Artifact) :=
  go []
where
  go (acc : List Artifact) : List Artifact → Except PyError (List Artifact)
    | [] => .ok acc
    | x :: xs =>
      match insertAsc x acc with
      | .error e => .error e
      | .ok acc' => go acc' xs

/-- Model of `search.py` lines 100-103, `all_artifacts.sort(key=..., reverse=True)`.
CPython implements `reverse=True` as: reverse the list, stable-sort
ascending, reverse again — modelled the same way.  The model agrees with
CPython's timsort on both observables the claims need: (a) on a list whose
keys all have one type it produces the stable descending order, and (b) it
raises `TypeError` exactly when the list holds keys of both types (any
comparison sort of such a list must compare the two key types at least
once, since no third value can bridge them by transitivity). -/
def pySortDesc (l : List Artifact) : Except PyError (List Artifact) :=
  (sortAsc l.reverse).map List.reverse

/-- Model of `config.py` `Settings`: the environment-derived configuration strings. -/
structure Settings where
  azure_devops_org_url : String := ""
  azure_devops_pat : String := ""
  figma_access_token : String := ""
  figma_file_key : String := ""
  notion_api_key : String := ""
  notion_database_id : String := ""
  icepanel_api_key : String := ""
  icepanel_landscape_id : String := ""
  azure_ai_endpoint : String := ""
  azure_ai_api_key : String := ""
  azure_ai_use_ad_auth : Bool := true
  deriving DecidableEq, Repr

/-- Truthiness of `bool(org_url and pat)`: both strings non-empty. -/
def Settings.is_azure_devops_configured (s : Settings) : Bool :=
  s.azure_devops_org_url != "" && s.azure_devops_pat != ""

/-- Truthiness of `bool(figma_access_token and figma_file_key)`. -/
def Settings.is_figma_configured (s : Settings) : Bool :=
  s.figma_access_token != "" && s.figma_file_key != ""

/-- Truthiness of `bool(notion_api_key and notion_database_id)`. -/
def Settings.is_notion_configured (s : Settings) : Bool :=
  s.notion_api_key != "" && s.notion_database_id != ""

/-- Truthiness of `bool(icepanel_api_key and icepanel_landscape_id)`. -/
def Settings.is_icepanel_configured (s : Settings) : Bool :=
  s.icepanel_api_key != "" && s.icepanel_landscape_id != ""

/-- Truthiness of `bool(endpoint and (api_key or use_ad_auth))`. -/
def Settings.is_azure_ai_configured (s : Settings) : Bool :=
  s.azure_ai_endpoint != "" &&
    (s.azure_ai_api_key != "" || s.azure_ai_use_ad_auth)

/-- Model of `search.py` `_initialize_connectors`: iterate `connector_classes` in
insertion order, keeping the sources whose connector `is_configured()`.
The resulting list is the key order of `self._connectors`. -/
def initializeConnectors (s : Settings) : List AppSource :=
  (if s.is_azure_devops_configured then [.azure_devops] else []) ++
  (if s.is_figma_configured then [.figma] else []) ++
  (if s.is_notion_configured then [.notion] else []) ++
  (if s.is_icepanel_configured then [.icepanel] else [])

/-- Model of `search.py` lines 67-71: `[self._connectors[app] for app in
routed.target_apps if app in self._connectors]`, identifying a connector
with its source. -/
def dispatchSources (connectors targets : List AppSource) : List AppSource :=
  targets.filter (fun a => a ∈ connectors)

/-- Model of `search.py` lines 84-97.  `outcome c` is what `asyncio.gather(...,
return_exceptions=True)` delivers for connector `c`: either the raised
exception (`.error`) or the artifact list.  The loop appends the artifacts
and the source of every successful connector, in dispatch order, and skips
(only logs) every failed one; this recursion builds exactly that pair. -/
def collectResults (dispatched : List AppSource)
    (outcome : AppSource → Except Unit (List Artifact)) :
    List Artifact × List AppSource :=
  match dispatched with
  | [] => ([], [])
  | c :: cs =>
    let rest := collectResults cs outcome
    match outcome c with
    | .error _ => rest
    | .ok arts => (arts ++ rest.1, c :: rest.2)

/-- The fixed summary of the empty-dispatch short circuit
(`search.py` line 81). -/
def noSourcesSummary : String :=
  "No configured data sources available for this query."

/-- The fixed summary for zero artifacts (`search.py` line 124). -/
def noMatchingSummary : String :=
  "No matching artifacts found."

/-- The templated count summary (`search.py` lines 127 and 177). -/
def templatedSummary (n : Nat) : String :=
  "Found " ++ toString n ++ " artifacts across multiple sources."

/-- Model of `search.py` `_generate_summary`.  `summaryRemote` is the oracle for the
remote chat-completions call: `.error` if it raised (caught by the
`except`), `.ok content` for a response whose message content is `content`
(`str | None`).  The second component records whether the remote
summarizer was invoked. -/
def generateSummary (azureConfigured : Bool)
    (summaryRemote : Except Unit (Option String)) (artifacts : List Artifact) :
    Option String × Bool :=
  if artifacts = [] then
    (some noMatchingSummary, false)
  else if !azureConfigured then
    (some (templatedSummary artifacts.length), false)
  else
    match summaryRemote with
    | .error _ => (some (templatedSummary artifacts.length), true)
    | .ok content => (content, true)

/-- Model of `search.py` `search`, from the routed targets on (lines 66-117):
filter to configured connectors, short-circuit when none remain, gather
with per-connector failure isolation, rank, summarize, assemble.  The
ranking sort can raise `TypeError` (see `pySortDesc`), which nothing
catches, hence the `Except` result.  The `Bool` records whether the remote
summarizer was invoked. -/
def searchPipeline (connectors : List AppSource) (azureConfigured : Bool)
    (summaryRemote : Except Unit (Option String))
    (outcome : AppSource → Except Unit (List Artifact))
    (routedTargets : List AppSource) (queryText : String) :
    Except PyError (SearchResult × Bool) :=
  let dispatched := dispatchSources connectors routedTargets
  if dispatched = [] then
    .ok ({ query := queryText, artifacts := [], sources_searched := [],
           total_results := 0, summary := some noSourcesSummary }, false)
  else
    let collected := collectResults dispatched outcome
    match pySortDesc collected.1 with
    | .error e => .error e
    | .ok sorted =>
      let s := generateSummary azureConfigured summaryRemote sorted
      .ok ({ query := queryText, artifacts := sorted,
             sources_searched := collected.2,
             total_results := sorted.length, summary := s.1 }, s.2)

/-- Model of `ArtifactSearchEngine.search` end to end for a raw string query:
normalize into a `SearchQuery` (pydantic accepts any string — no length
check), route, then run the pipeline. -/
def engineSearch (settings : Settings) (routeRemote : RemoteClassification)
    (summaryRemote : Except Unit (Option String))
    (outcome : AppSource → Except Unit (List Artifact)) (query : String) :
    Except PyError (SearchResult × Bool) :=
  let sq : SearchQuery := { query := query }
  let routed := (route_query settings.is_azure_ai_configured routeRemote sq).1
  searchPipeline (initializeConnectors settings) settings.is_azure_ai_configured
    summaryRemote outcome routed.target_apps query

/-! ### Engine state and the remaining operations -/

/-- The mutable state of an `ArtifactSearchEngine` instance: `self._settings`
and `self._connectors` (keys, in insertion order). -/
structure EngineState where
  settings : Settings
  connectors : List AppSource
  deriving DecidableEq, Repr

/-- Model of `ArtifactSearchEngine.__init__`: store the settings and initialize the
connector dict. -/
def engineInit (s : Settings) : EngineState :=
  { settings := s, connectors := initializeConnectors s }

/-- Model of `get_configured_sources`: `list(self._connectors.keys())`. -/
def get_configured_sources (st : EngineState) : List AppSource :=
  st.connectors

/-- Method `search` as a state transformer.  The method body reads
`self._settings` and `self._connectors` and assigns to neither, so the
post-state is the pre-state. -/
def searchStep (st : EngineState) (routeRemote : RemoteClassification)
    (summaryRemote : Except Unit (Option String))
    (outcome : AppSource → Except Unit (List Artifact)) (query : String) :
    Except PyError (SearchResult × Bool) × EngineState :=
  (engineSearch st.settings routeRemote summaryRemote outcome query, st)

/-- Method `get_artifact` as a state transformer (`search.py` lines 179-185):
an unconfigured source short-circuits to `None` before any connector call;
otherwise the connector's `get_by_id` oracle answers.  No assignment to
`self._connectors` occurs on either path. -/
def getArtifactStep (st : EngineState)
    (getById : AppSource → String → Option Artifact)
    (source : AppSource) (artifact_id : String) :
    Option Artifact × EngineState :=
  if source ∈ st.connectors then (getById source artifact_id, st)
  else (none, st)

/-- Method `test_connections` as a state transformer (`search.py` lines 187-196):
each configured connector's `test_connection` oracle either answers a
boolean or raises; a raise is caught and recorded as `false`.  The loop
only reads `self._connectors`. -/
def testConnectionsStep (st : EngineState)
    (testOutcome : AppSource → Except Unit Bool) :
    List (AppSource × Bool) × EngineState :=
  (st.connectors.map (fun s =>
      (s, match testOutcome s with
          | .ok b => b
          | .error _ => false)), st)

/-- One engine operation together with the oracle answers it consumes. -/
inductive EngineOp where
  | searchOp (routeRemote : RemoteClassification)
      (summaryRemote : Except Unit (Option String))
      (outcome : AppSource → Except Unit (List Artifact)) (query : String)
  | getArtifactOp (getById : AppSource → String → Option Artifact)
      (source : AppSource) (artifact_id : String)
  | testConnectionsOp (testOutcome : AppSource → Except Unit Bool)

/-- Run one operation for its state effect. -/
def applyOp (st : EngineState) : EngineOp → EngineState
  | .searchOp r s o q => (searchStep st r s o q).2
  | .getArtifactOp g src id => (getArtifactStep st g src id).2
  | .testConnectionsOp t => (testConnectionsStep st t).2

/-- Model of `api.py` `SearchRequest`: the presentation layer's request model, with
`query: str = Field(..., min_length=1, max_length=1000)`. -/
structure SearchRequest where
  query : String
  deriving DecidableEq, Repr

/-- Pydantic validation of `SearchRequest`: accepts exactly the strings of
length 1 to 1000 (length in characters). -/
def searchRequestValidate (q : String) : Option SearchRequest :=
  if 1 ≤ q.length ∧ q.length ≤ 1000 then some { query := q } else none

/-! ### `connectors/figma.py` `_request_with_retry` -/

/-- What one iteration's `client.request` produces: a response (with its
status code and optional `Retry-After` header) or an
`httpx.TimeoutException`. -/
inductive AttemptOutcome where
  | resp (status : Nat) (retryAfter : Option String)
  | timeout
  deriving DecidableEq, Repr

/-- Python `int(s)` on a string: strip surrounding whitespace, optional
sign, then a digit run with single underscores allowed between digits;
`none` models the `ValueError` raise.  (CPython also accepts non-ASCII
decimal digits; HTTP header values are ASCII.) -/
def pyIntOfString (s : String) : Option Int :=
  match stripWs s.data with
  | '+' :: rest => (pyDigits rest).map (fun n => (n : Int))
  | '-' :: rest => (pyDigits rest).map (fun n => -(n : Int))
  | l => (pyDigits l).map (fun n => (n : Int))
where
  stripWs (l : List Char) : List Char :=
    ((l.dropWhile Char.isWhitespace).reverse.dropWhile Char.isWhitespace).reverse
  pyDigits : List Char → Option Nat
    | [] => none
    | c :: rest =>
      if c.isDigit then pyDigitsGo (c.toNat - 48) rest else none
  pyDigitsGo (acc : Nat) : List Char → Option Nat
    | [] => some acc
    | '_' :: c :: rest =>
      if c.isDigit then pyDigitsGo (acc * 10 + (c.toNat - 48)) rest else none
    | c :: rest =>
      if c.isDigit then pyDigitsGo (acc * 10 + (c.toNat - 48)) rest else none

/-- The effect of one loop iteration of `_request_with_retry`
(`figma.py` lines 58-95) on attempt number `attempt`. -/
inductive StepOutcome where
  | ret (status : Nat)
  | raiseStatusError (status : Nat)
  | raiseValueError
  | sleepRetry (wait : Int) (timedOut : Bool) (boundStatus : Option Nat)
  | passRetry (status : Nat)
  deriving DecidableEq, Repr

/-- One iteration: status 200 returns; on 429 the code reads
`retry_after = response.headers.get("Retry-After")` and guards `int()`
with `if retry_after:` — Python truthiness, so an absent or *empty*
header skips the parse and retries after `2**attempt`, while a present
non-empty header is parsed: a malformed one makes `int()` raise
`ValueError`, uncaught, and a parsed `n` sleeps
`max(2**attempt, n)`; status ≥ 500 retries after `2**attempt`; a timeout
records itself as `last_exception` and retries after `2**attempt`; any
other status reaches `response.raise_for_status()`, which raises for a
non-2xx status and is a no-op for a 2xx status other than 200 — in which
case the loop falls through to the next attempt without sleeping. -/
def retryStep (attempt : Nat) : AttemptOutcome → StepOutcome
  | .timeout => .sleepRetry ((2 : Int) ^ attempt) true none
  | .resp status retryAfter =>
    if status = 200 then
      .ret 200
    else if status = 429 then
      match retryAfter with
      | none => .sleepRetry ((2 : Int) ^ attempt) false (some 429)
      | some s =>
        if s = "" then
          .sleepRetry ((2 : Int) ^ attempt) false (some 429)
        else
          match pyIntOfString s with
          | none => .raiseValueError
          | some n =>
            .sleepRetry (max ((2 : Int) ^ attempt) n) false (some 429)
    else if status ≥ 500 then
      .sleepRetry ((2 : Int) ^ attempt) false (some status)
    else if 200 ≤ status ∧ status < 300 then
      .passRetry status
    else
      .raiseStatusError status

/-- How `_request_with_retry` ends. -/
inductive RetryResult where
  | ok (status : Nat)
  | httpStatusError (status : Nat)
  | valueError
  | timeoutError
  | failedAfterRetries
  | nameError
  deriving DecidableEq, Repr

/-- The `for attempt in range(max_retries)` loop, driven by the oracle `f`
giving each attempt's outcome.  State: `fuel` = remaining range,
`attempt` = current index, `lastTimeout` = whether `last_exception` is
set, `lastStatus` = status of the last bound `response` (if any).  After
the range is exhausted: re-raise the last timeout if one occurred, else
raise `HTTPStatusError("Failed after ... retries")` — referencing
`response`, a `NameError` if no response was ever bound (impossible for
`max_retries = 3`).  Returns the result, the number of attempts executed
and the list of sleep durations. -/
def retryLoop (f : Nat → AttemptOutcome) :
    Nat → Nat → Bool → Option Nat → RetryResult × Nat × List Int
  | 0, attempt, lastTimeout, lastStatus =>
    (if lastTimeout then .timeoutError
     else match lastStatus with
       | some _ => .failedAfterRetries
       | none => .nameError,
     attempt, [])
  | fuel + 1, attempt, lastTimeout, lastStatus =>
    match retryStep attempt (f attempt) with
    | .ret s => (.ok s, attempt + 1, [])
    | .raiseStatusError s => (.httpStatusError s, attempt + 1, [])
    | .raiseValueError => (.valueError, attempt + 1, [])
    | .passRetry s =>
      retryLoop f fuel (attempt + 1) lastTimeout (some s)
    | .sleepRetry w timedOut bound =>
      let r := retryLoop f fuel (attempt + 1) (lastTimeout || timedOut)
        (match bound with
         | some s => some s
         | none => lastStatus)
      (r.1, r.2.1, w :: r.2.2)

/-- Model of `_request_with_retry` with the default `max_retries = 3` (the only
value any call site uses). -/
def requestWithRetry (f : Nat → AttemptOutcome) :
    RetryResult × Nat × List Int :=
  retryLoop f 3 0 false none

/-! ### Derived notions used by the theorems -/

/-- Whether connector `c`'s gathered search outcome was a success
(`not isinstance(result, Exception)`). -/
def connSucceeded (outcome : AppSource → Except Unit (List Artifact))
    (c : AppSource) : Bool :=
  match outcome c with
  | .ok _ => true
  | .error _ => false

/-- The artifacts connector `c` contributed (empty for a failed one). -/
def connArtifacts (outcome : AppSource → Except Unit (List Artifact))
    (c : AppSource) : List Artifact :=
  match outcome c with
  | .ok arts => arts
  | .error _ => []

/-- Reference keep-first deduplication: keep the head, drop its later
occurrences, recurse.  Used to state that `dedupFirst` keeps the first
occurrence of every value. -/
def dedupFirstSpec {α : Type} [DecidableEq α] : List α → List α
  | [] => []
  | a :: l => a :: dedupFirstSpec (l.filter (fun b => b ≠ a))
termination_by l => l.length
decreasing_by
  simpa using Nat.lt_succ_of_le (List.length_filter_le _ _)

/-- A loop iteration that neither returns nor raises: backoff-sleep retry
or the silent fall-through of a 2xx non-200 status. -/
def isRetryStep : StepOutcome → Bool
  | .sleepRetry _ _ _ => true
  | .passRetry _ => true
  | _ => false

/-- Fixture: an artifact carrying a timestamp (sort key is a `datetime`). -/
def artTimestamped : Artifact :=
  { id := "fig-1", source := .figma, artifact_type := .design,
    title := "Alarm screen", content := "Figma FRAME: Alarm screen",
    updated_at := some 100 }

/-- Fixture: an artifact with neither timestamp (sort key is `""`). -/
def artUntimestamped : Artifact :=
  { id := "not-1", source := .notion, artifact_type := .document,
    title := "Alarm SOP", content := "Alarm handling procedure" }

/-! ### Helper lemmas -/

theorem dedupFirst_go_mem {α : Type} [DecidableEq α] (a : α) :
    ∀ (l seen : List α), a ∈ dedupFirst.go seen l ↔ a ∈ l ∧ a ∉ seen := by
  intro l
  induction l with
  | nil => intro seen; simp [dedupFirst.go]
  | cons b l ih =>
    intro seen
    by_cases hb : b ∈ seen
    · simp only [dedupFirst.go, if_pos hb, ih]
      constructor
      · rintro ⟨hl, hs⟩
        exact ⟨List.mem_cons_of_mem _ hl, hs⟩
      · rintro ⟨hl, hs⟩
        rcases List.mem_cons.mp hl with rfl | hl
        · exact absurd hb hs
        · exact ⟨hl, hs⟩
    · simp only [dedupFirst.go, if_neg hb, List.mem_cons, ih]
      constructor
      · rintro (rfl | ⟨hl, hs⟩)
        · exact ⟨Or.inl rfl, hb⟩
        · exact ⟨Or.inr hl, fun hseen => hs (Or.inr hseen)⟩
      · rintro ⟨rfl | hl, hs⟩
        · exact Or.inl rfl
        · by_cases hab : a = b
          · exact Or.inl hab
          · exact Or.inr ⟨hl, fun h => h.elim hab hs⟩

theorem dedupFirst_go_nodup {α : Type} [DecidableEq α] :
    ∀ (l seen : List α), (dedupFirst.go seen l).Nodup := by
  intro l
  induction l with
  | nil => intro seen; simp [dedupFirst.go]
  | cons b l ih =>
    intro seen
    by_cases hb : b ∈ seen
    · simpa [dedupFirst.go, if_pos hb] using ih seen
    · simp only [dedupFirst.go, if_neg hb, List.nodup_cons]
      refine ⟨fun hmem => ?_, ih _⟩
      have := (dedupFirst_go_mem b l (b :: seen)).mp hmem
      exact this.2 (List.mem_cons_self b seen)

theorem dedupFirst_go_sublist {α : Type} [DecidableEq α] :
    ∀ (l seen : List α), (dedupFirst.go seen l).Sublist l := by
  intro l
  induction l with
  | nil => intro seen; simp [dedupFirst.go]
  | cons b l ih =>
    intro seen
    by_cases hb : b ∈ seen
    · simpa [dedupFirst.go, if_pos hb] using (ih seen).trans (List.sublist_cons_self b l)
    · simpa [dedupFirst.go, if_neg hb] using (ih (b :: seen)).cons₂ b

theorem dedupFirst_go_spec {α : Type} [DecidableEq α] :
    ∀ (l seen : List α),
      dedupFirst.go seen l = dedupFirstSpec (l.filter (fun a => a ∉ seen)) := by
  intro l
  induction l with
  | nil => intro seen; simp [dedupFirst.go, dedupFirstSpec]
  | cons b l ih =>
    intro seen
    by_cases hb : b ∈ seen
    · simp only [dedupFirst.go, if_pos hb, List.filter_cons]
      rw [if_neg (by simp [hb]), ih]
    · simp only [dedupFirst.go, if_neg hb, List.filter_cons]
      rw [if_pos (by simp [hb]), dedupFirstSpec, ih (b :: seen)]
      congr 1
      rw [List.filter_filter]
      congr 1
      apply List.filter_congr
      intro a _
      by_cases hab : a = b <;> simp [hab, List.mem_cons]

theorem dedupFirst_eq_spec {α : Type} [DecidableEq α] (l : List α) :
    dedupFirst l = dedupFirstSpec l := by
  rw [dedupFirst, dedupFirst_go_spec]
  congr 1
  simp

theorem dedupFirst_nodup {α : Type} [DecidableEq α] (l : List α) :
    (dedupFirst l).Nodup :=
  dedupFirst_go_nodup l []

theorem dedupFirst_sublist {α : Type} [DecidableEq α] (l : List α) :
    (dedupFirst l).Sublist l :=
  dedupFirst_go_sublist l []

theorem dedupFirst_mem {α : Type} [DecidableEq α] (a : α) (l : List α) :
    a ∈ dedupFirst l ↔ a ∈ l := by
  rw [dedupFirst, dedupFirst_go_mem]
  simp

theorem collectResults_eq (d : List AppSource)
    (o : AppSource → Except Unit (List Artifact)) :
    collectResults d o =
      (((d.filter (connSucceeded o)).map (connArtifacts o)).flatten,
       d.filter (connSucceeded o)) := by
  induction d with
  | nil => rfl
  | cons c cs ih =>
    simp only [collectResults, ih, List.filter_cons]
    cases h : o c with
    | error e => simp [connSucceeded, h]
    | ok arts => simp [connSucceeded, connArtifacts, h]

theorem length_filter_partition {α : Type} (p : α → Bool) (l : List α) :
    (l.filter p).length + (l.filter (fun a => !(p a))).length = l.length := by
  induction l with
  | nil => rfl
  | cons a l ih =>
    cases h : p a <;> simp [List.filter_cons, h, ← ih] <;> omega

theorem insertAsc_perm (x : Artifact) :
    ∀ (l r : List Artifact), insertAsc x l = .ok r → r.Perm (x :: l) := by
  intro l
  induction l with
  | nil =>
    intro r h
    cases h
    exact List.Perm.refl _
  | cons y ys ih =>
    intro r h
    rw [insertAsc] at h
    cases hlt : pyKeyLt (effectiveKey x) (effectiveKey y) with
    | error e => rw [hlt] at h; cases h
    | ok b =>
      rw [hlt] at h
      cases b with
      | true =>
        cases h
        exact List.Perm.refl _
      | false =>
        cases hins : insertAsc x ys with
        | error e => rw [hins] at h; cases h
        | ok r' =>
          rw [hins] at h
          cases h
          exact ((ih r' hins).cons y).trans (List.Perm.swap x y ys)

theorem sortAsc_go_perm :
    ∀ (l acc r : List Artifact),
      sortAsc.go acc l = .ok r → r.Perm (acc ++ l) := by
  intro l
  induction l with
  | nil =>
    intro acc r h
    cases h
    simp
  | cons x xs ih =>
    intro acc r h
    rw [sortAsc.go] at h
    cases hins : insertAsc x acc with
    | error e => rw [hins] at h; cases h
    | ok acc' =>
      rw [hins] at h
      have h1 : r.Perm (acc' ++ xs) := ih acc' r h
      have h2 : acc'.Perm (x :: acc) := insertAsc_perm x acc acc' hins
      exact h1.trans ((h2.append_right xs).trans List.perm_middle.symm)

theorem pySortDesc_perm (l r : List Artifact) (h : pySortDesc l = .ok r) :
    r.Perm l := by
  rw [pySortDesc, sortAsc] at h
  cases hs : sortAsc.go [] l.reverse with
  | error e => rw [hs] at h; cases h
  | ok s =>
    rw [hs] at h
    cases h
    have hperm := sortAsc_go_perm l.reverse [] s hs
    simp only [List.nil_append] at hperm
    exact (List.reverse_perm s).trans (hperm.trans (List.reverse_perm l))

theorem retryLoop_attempts_le (f : Nat → AttemptOutcome) :
    ∀ (fuel a : Nat) (lt : Bool) (ls : Option Nat),
      (retryLoop f fuel a lt ls).2.1 ≤ a + fuel := by
  intro fuel
  induction fuel with
  | zero =>
    intro a lt ls
    simp [retryLoop]
  | succ n ih =>
    intro a lt ls
    rw [retryLoop]
    cases retryStep a (f a) with
    | ret s => simp
    | raiseStatusError s => simp
    | raiseValueError => simp
    | passRetry s =>
      have := ih (a + 1) lt (some s)
      simpa using this.trans (by omega)
    | sleepRetry w t b =>
      have := ih (a + 1) (lt || t)
        (match b with | some s => some s | none => ls)
      simpa using this.trans (by omega)

theorem retryStep_sleep_flags (i : Nat) (o : AttemptOutcome) (w : Int)
    (t : Bool) (b : Option Nat) (h : retryStep i o = .sleepRetry w t b) :
    (t = true ↔ o = .timeout) ∧ (t = false → ∃ s, b = some s) := by
  cases o with
  | timeout =>
    simp only [retryStep] at h
    cases h
    simp
  | resp status ra =>
    simp only [retryStep] at h
    by_cases h200 : status = 200
    · rw [if_pos h200] at h; cases h
    · rw [if_neg h200] at h
      by_cases h429 : status = 429
      · rw [if_pos h429] at h
        cases ra with
        | none => cases h; simp
        | some s =>
          dsimp only at h
          by_cases hs : s = ""
          · rw [if_pos hs] at h; cases h; simp
          · rw [if_neg hs] at h
            cases hint : pyIntOfString s with
            | none => rw [hint] at h; cases h
            | some n => rw [hint] at h; cases h; simp
      · rw [if_neg h429] at h
        by_cases h500 : 500 ≤ status
        · rw [if_pos h500] at h; cases h; simp
        · rw [if_neg h500] at h
          by_cases h2xx : 200 ≤ status ∧ status < 300
          · rw [if_pos h2xx] at h; cases h
          · rw [if_neg h2xx] at h; cases h

theorem retryLoop_timeout_result (f : Nat → AttemptOutcome) :
    ∀ (fuel a : Nat) (lt : Bool) (ls : Option Nat),
      (∀ j, j < fuel → isRetryStep (retryStep (a + j) (f (a + j))) = true) →
      (lt = true ∨ ∃ j, j < fuel ∧ f (a + j) = .timeout) →
      (retryLoop f fuel a lt ls).1 = .timeoutError := by
  intro fuel
  induction fuel with
  | zero =>
    intro a lt ls _ hcase
    rcases hcase with h | ⟨j, hj, _⟩
    · subst h; rfl
    · omega
  | succ n ih =>
    intro a lt ls hretry hcase
    have h0 := hretry 0 (by omega)
    rw [Nat.add_zero] at h0
    have htail : ∀ j, j < n → isRetryStep (retryStep (a + 1 + j) (f (a + 1 + j))) = true := by
      intro j hj
      have := hretry (j + 1) (by omega)
      have harg : a + (j + 1) = a + 1 + j := by omega
      rwa [harg] at this
    cases hstep : retryStep a (f a) with
    | ret s => rw [hstep] at h0; cases h0
    | raiseStatusError s => rw [hstep] at h0; cases h0
    | raiseValueError => rw [hstep] at h0; cases h0
    | passRetry s =>
      rw [retryLoop, hstep]
      apply ih (a + 1) lt (some s) htail
      rcases hcase with h | ⟨j, hj, htime⟩
      · exact Or.inl h
      · cases j with
        | zero =>
          rw [Nat.add_zero] at htime
          rw [htime] at hstep
          simp [retryStep] at hstep
        | succ j' =>
          refine Or.inr ⟨j', by omega, ?_⟩
          have harg : a + 1 + j' = a + (j' + 1) := by omega
          rwa [harg]
    | sleepRetry w t b =>
      rw [retryLoop, hstep]
      dsimp only
      have hnext : (lt || t) = true ∨ ∃ j, j < n ∧ f (a + 1 + j) = .timeout := by
        rcases hcase with h | ⟨j, hj, htime⟩
        · subst h; exact Or.inl rfl
        · cases j with
          | zero =>
            rw [Nat.add_zero] at htime
            have := ((retryStep_sleep_flags a (f a) w t b hstep).1).mpr htime
            subst this
            simp
          | succ j' =>
            refine Or.inr ⟨j', by omega, ?_⟩
            have harg : a + 1 + j' = a + (j' + 1) := by omega
            rwa [harg]
      cases b with
      | some s => exact ih (a + 1) (lt || t) (some s) htail hnext
      | none => exact ih (a + 1) (lt || t) ls htail hnext

theorem retryLoop_failed_result (f : Nat → AttemptOutcome) :
    ∀ (fuel a s : Nat),
      (∀ j, j < fuel → isRetryStep (retryStep (a + j) (f (a + j))) = true) →
      (∀ j, j < fuel → f (a + j) ≠ .timeout) →
      (retryLoop f fuel a false (some s)).1 = .failedAfterRetries := by
  intro fuel
  induction fuel with
  | zero =>
    intro a s _ _
    rfl
  | succ n ih =>
    intro a s hretry hnotime
    have h0 := hretry 0 (by omega)
    rw [Nat.add_zero] at h0
    have hnt0 := hnotime 0 (by omega)
    rw [Nat.add_zero] at hnt0
    have htail : ∀ j, j < n → isRetryStep (retryStep (a + 1 + j) (f (a + 1 + j))) = true := by
      intro j hj
      have := hretry (j + 1) (by omega)
      have harg : a + (j + 1) = a + 1 + j := by omega
      rwa [harg] at this
    have hnttail : ∀ j, j < n → f (a + 1 + j) ≠ .timeout := by
      intro j hj
      have := hnotime (j + 1) (by omega)
      have harg : a + (j + 1) = a + 1 + j := by omega
      rwa [harg] at this
    cases hstep : retryStep a (f a) with
    | ret s' => rw [hstep] at h0; cases h0
    | raiseStatusError s' => rw [hstep] at h0; cases h0
    | raiseValueError => rw [hstep] at h0; cases h0
    | passRetry s' =>
      rw [retryLoop, hstep]
      exact ih (a + 1) s' htail hnttail
    | sleepRetry w t b =>
      have hflags := retryStep_sleep_flags a (f a) w t b hstep
      have ht : t = false := by
        cases t with
        | false => rfl
        | true => exact absurd (hflags.1.mp rfl) hnt0
      obtain ⟨s', hb⟩ := hflags.2 ht
      subst ht
      subst hb
      rw [retryLoop, hstep]
      dsimp only
      exact ih (a + 1) s' htail hnttail

/-- No engine method assigns to `self._connectors` or `self._settings`. -/
theorem applyOp_eq (st : EngineState) (op : EngineOp) : applyOp st op = st := by
  cases op with
  | searchOp r s o q => rfl
  | getArtifactOp g src id =>
    rw [applyOp, getArtifactStep]
    by_cases h : src ∈ st.connectors
    · rw [if_pos h]
    · rw [if_neg h]
  | testConnectionsOp t => rfl

theorem take_five_ne_nil {α : Type} (l : List α) (h : l ≠ []) :
    l.take 5 ≠ [] := by
  cases l with
  | nil => exact absurd rfl h
  | cons a l => simp

theorem fallback_search_terms_ne_nil (q : SearchQuery) :
    (fallback_route q).search_terms ≠ [] := by
  rw [fallback_route]
  dsimp only
  by_cases h : fallbackTerms q.query = []
  · rw [if_pos h]
    simp
  · rw [if_neg h]
    exact h

/-! ### Claim theorems -/

/-- C2: the ranking step is claimed to complete on every merged artifact
list, placing untimestamped artifacts after timestamped ones.  The code's
sort key `a.updated_at or a.created_at or ""` mixes `datetime` and `str`
values, so on a list holding one artifact of each kind `list.sort` raises
`TypeError` instead of completing: evaluating the embedded sort at that
failing input yields the error. -/
theorem ranking_sort_raises_on_mixed_timestamps :
    pySortDesc [artTimestamped, artUntimestamped] = .error .typeError := by
  rfl

/-- C3: route_query never raises to its caller — with the classification
backend unconfigured the remote call is skipped (no network attempt, flag
`false`) and the deterministic fallback is returned; with it configured, a
remote failure of any kind, or an empty response, also yields exactly the
fallback's RoutedQuery. -/
theorem route_query_never_raises :
    (∀ (r : RemoteClassification) (q : SearchQuery),
        route_query false r q = (fallback_route q, false))
  ∧ (∀ q : SearchQuery, route_query true .failure q = (fallback_route q, true))
  ∧ (∀ q : SearchQuery, route_query true .empty q = (fallback_route q, true)) :=
  ⟨fun _ _ => rfl, fun _ => rfl, fun _ => rfl⟩

/-- C4 counterexample: on the remote-classification path, a well-formed
classifier response carrying no search terms combined with the empty query
produces a RoutedQuery whose `search_terms` is empty — the claim's
universal non-emptiness fails. -/
theorem route_query_empty_search_terms_counterexample :
    (route_query true (.parsed [] [] []) { query := "" }).1.search_terms = [] :=
  rfl

/-- C4 (amended): route_query's output has non-empty `search_terms` on the
fallback path for every query, and on the remote path whenever the query
contains at least one whitespace-separated token; only a remote response
with no search terms together with a token-free query yields an empty
list. -/
theorem route_query_search_terms_nonempty_amended :
    (∀ (cfg : Bool) (r : RemoteClassification) (q : SearchQuery),
        pySplit q.query ≠ [] → (route_query cfg r q).1.search_terms ≠ [])
  ∧ (∀ (r : RemoteClassification) (q : SearchQuery),
        (route_query false r q).1.search_terms ≠ []) := by
  constructor
  · intro cfg r q hsplit
    cases cfg with
    | false => exact fallback_search_terms_ne_nil q
    | true =>
      cases r with
      | failure => exact fallback_search_terms_ne_nil q
      | empty => exact fallback_search_terms_ne_nil q
      | parsed apps types terms =>
        rw [route_query]
        dsimp only
        by_cases ht : terms = []
        · rw [if_pos ht]
          exact take_five_ne_nil _ hsplit
        · rw [if_neg ht]
          exact ht
  · intro r q
    exact fallback_search_terms_ne_nil q

/-- C4 witness: a concrete query with tokens, routed on the remote path
with a term-free classifier response, still gets non-empty search terms. -/
theorem route_query_search_terms_nonempty_witness :
    pySplit "risk controls" ≠ [] ∧
    (route_query true (.parsed [] [] [])
        { query := "risk controls" }).1.search_terms ≠ [] :=
  ⟨by decide,
   route_query_search_terms_nonempty_amended.1 true (.parsed [] [] [])
     { query := "risk controls" } (by decide)⟩

/-- C5 counterexample: the remote-classification path performs no
deduplication — a classifier response repeating a valid source token
yields a RoutedQuery whose `target_apps` holds duplicates. -/
theorem route_query_duplicate_target_apps_counterexample :
    (route_query true (.parsed ["notion", "notion"] [] [])
        { query := "alarm" }).1.target_apps = [.notion, .notion]
  ∧ ¬ ((route_query true (.parsed ["notion", "notion"] [] [])
        { query := "alarm" }).1.target_apps.Nodup) :=
  ⟨rfl, by decide⟩

/-- C5 (amended): on the deterministic fallback path, `target_apps` and
`artifact_types` are deduplicated preserving first-seen order — each list
equals the keep-first dedup of the keyword scan's raw list, is
duplicate-free, and is an order-preserving sublist of it; the
remote-classification path keeps whatever (possibly duplicated) valid
tokens the classifier returned. -/
theorem fallback_route_dedup_amended :
    ∀ q : SearchQuery,
      ((fallback_route q).target_apps =
          dedupFirstSpec (fallbackRawApps (pyLower q.query)) ∧
        (fallback_route q).target_apps.Nodup ∧
        (fallback_route q).target_apps.Sublist
          (fallbackRawApps (pyLower q.query)))
    ∧ ((fallback_route q).artifact_types =
          dedupFirstSpec (fallbackRawTypes (pyLower q.query)) ∧
        (fallback_route q).artifact_types.Nodup ∧
        (fallback_route q).artifact_types.Sublist
          (fallbackRawTypes (pyLower q.query))) := by
  intro q
  exact ⟨⟨dedupFirst_eq_spec _, dedupFirst_nodup _, dedupFirst_sublist _⟩,
         ⟨dedupFirst_eq_spec _, dedupFirst_nodup _, dedupFirst_sublist _⟩⟩

/-- C6: when no routed target is among the configured connectors, search
short-circuits with the fixed "no sources available" summary, zero
artifacts, empty `sources_searched`, zero `total_results`, and the
summarizer is never invoked. -/
theorem search_no_sources_short_circuit
    (connectors : List AppSource) (cfg : Bool)
    (sr : Except Unit (Option String))
    (o : AppSource → Except Unit (List Artifact))
    (targets : List AppSource) (q : String)
    (h : ∀ a ∈ targets, a ∉ connectors) :
    searchPipeline connectors cfg sr o targets q =
      .ok ({ query := q, artifacts := [], sources_searched := [],
             total_results := 0, summary := some noSourcesSummary }, false) := by
  have hd : dispatchSources connectors targets = [] := by
    rw [dispatchSources, List.filter_eq_nil_iff]
    intro a ha
    simp [h a ha]
  dsimp only [searchPipeline]
  rw [if_pos hd]

/-- C6 witness: a concrete engine with no configured connectors
short-circuits on a routed Figma target. -/
theorem search_no_sources_short_circuit_witness :
    (∀ a ∈ [AppSource.figma], a ∉ ([] : List AppSource)) ∧
    searchPipeline [] true (.ok none) (fun _ => .ok []) [.figma] "design" =
      .ok ({ query := "design", artifacts := [], sources_searched := [],
             total_results := 0, summary := some noSourcesSummary }, false) :=
  ⟨by decide,
   search_no_sources_short_circuit [] true (.ok none) (fun _ => .ok [])
     [.figma] "design" (by decide)⟩

/-- C7: with zero artifacts the summary is the fixed "no matching
artifacts" string and the summarizer is not called; with a non-empty list
and the summarization backend unconfigured the summary is the templated
count string with no network attempt; with it configured but the remote
call failing, the same templated count string is returned. -/
theorem generate_summary_fallback_paths :
    (∀ (cfg : Bool) (sr : Except Unit (Option String)),
        generateSummary cfg sr [] = (some noMatchingSummary, false))
  ∧ (∀ (sr : Except Unit (Option String)) (arts : List Artifact),
        arts ≠ [] →
        generateSummary false sr arts =
          (some (templatedSummary arts.length), false))
  ∧ (∀ arts : List Artifact,
        arts ≠ [] →
        generateSummary true (.error ()) arts =
          (some (templatedSummary arts.length), true)) := by
  refine ⟨fun cfg sr => rfl, fun sr arts h => ?_, fun arts h => ?_⟩
  · rw [generateSummary.eq_def, if_neg h]
    rfl
  · rw [generateSummary.eq_def, if_neg h]
    rfl

/-- C7 witness: five artifacts with the summarizer unconfigured yield the
templated string referencing the count 5. -/
theorem generate_summary_fallback_paths_witness :
    ([artTimestamped, artTimestamped, artTimestamped, artTimestamped,
      artTimestamped] : List Artifact) ≠ [] ∧
    generateSummary false (.ok none)
        [artTimestamped, artTimestamped, artTimestamped, artTimestamped,
         artTimestamped] =
      (some "Found 5 artifacts across multiple sources.", false) := by
  constructor
  · simp
  · have h := generate_summary_fallback_paths.2.1 (.ok none)
      [artTimestamped, artTimestamped, artTimestamped, artTimestamped,
       artTimestamped] (by simp)
    rw [h]
    rfl

/-- C1 counterexample: two dispatched connectors, exactly one of which
fails; the surviving connector's artifacts mix a timestamped and an
untimestamped artifact, so the ranking sort raises `TypeError` and search
propagates it instead of returning the other connector's artifacts. -/
theorem search_one_failure_counterexample :
    searchPipeline [.notion, .figma] false (.ok none)
      (fun c => if c = .notion then .error ()
                else .ok [artTimestamped, artUntimestamped])
      [.notion, .figma] "alarm" = .error .typeError := by
  rfl

/-- C1 (amended): search isolates per-connector failures in the merge — a
failed connector contributes no artifacts and is excluded from
sources_searched; when exactly one of the N dispatched connectors fails
and the ranking sort of the surviving artifacts does not raise (it raises
when they mix timestamped and untimestamped artifacts), the result holds
exactly the other N−1 connectors' artifacts and sources_searched has
length N−1; when every dispatched connector fails, search returns a
result with no artifacts, total_results = 0 and sources_searched = []
without raising. -/
theorem search_isolates_connector_failures :
    (∀ (d : List AppSource) (o : AppSource → Except Unit (List Artifact)),
        (collectResults d o).2 = d.filter (connSucceeded o) ∧
        (collectResults d o).1 =
          ((d.filter (connSucceeded o)).map (connArtifacts o)).flatten)
  ∧ (∀ (connectors : List AppSource) (cfg : Bool)
        (sr : Except Unit (Option String))
        (o : AppSource → Except Unit (List Artifact))
        (targets : List AppSource) (q : String) (failed : AppSource)
        (sorted : List Artifact),
        (dispatchSources connectors targets).filter
            (fun c => !(connSucceeded o c)) = [failed] →
        pySortDesc
            (collectResults (dispatchSources connectors targets) o).1 =
          .ok sorted →
        ∃ res called,
          searchPipeline connectors cfg sr o targets q = .ok (res, called) ∧
          res.artifacts = sorted ∧
          res.artifacts.Perm
            ((((dispatchSources connectors targets).filter
                (connSucceeded o)).map (connArtifacts o)).flatten) ∧
          res.sources_searched =
            (dispatchSources connectors targets).filter (connSucceeded o) ∧
          res.sources_searched.length + 1 =
            (dispatchSources connectors targets).length)
  ∧ (∀ (connectors : List AppSource) (cfg : Bool)
        (sr : Except Unit (Option String))
        (o : AppSource → Except Unit (List Artifact))
        (targets : List AppSource) (q : String),
        dispatchSources connectors targets ≠ [] →
        (∀ c ∈ dispatchSources connectors targets,
            connSucceeded o c = false) →
        searchPipeline connectors cfg sr o targets q =
          .ok ({ query := q, artifacts := [], sources_searched := [],
                 total_results := 0,
                 summary := some noMatchingSummary }, false)) := by
  refine ⟨?_, ?_, ?_⟩
  · intro d o
    rw [collectResults_eq]
    exact ⟨rfl, rfl⟩
  · intro connectors cfg sr o targets q failed sorted hfail hsort
    have hdne : dispatchSources connectors targets ≠ [] := by
      intro hnil
      rw [hnil] at hfail
      simp at hfail
    dsimp only [searchPipeline]
    rw [if_neg hdne, hsort]
    refine ⟨_, _, rfl, rfl, ?_, ?_, ?_⟩
    · have hperm := pySortDesc_perm _ _ hsort
      rw [collectResults_eq] at hperm
      exact hperm
    · rw [collectResults_eq]
    · show (collectResults (dispatchSources connectors targets) o).2.length + 1 =
        (dispatchSources connectors targets).length
      rw [collectResults_eq]
      have hpart := length_filter_partition (connSucceeded o)
        (dispatchSources connectors targets)
      rw [hfail] at hpart
      simp only [List.length_cons, List.length_nil] at hpart
      simpa using hpart
  · intro connectors cfg sr o targets q hdne hall
    have hfilter : (dispatchSources connectors targets).filter
        (connSucceeded o) = [] := by
      rw [List.filter_eq_nil_iff]
      intro a ha
      simp [hall a ha]
    have hc := collectResults_eq (dispatchSources connectors targets) o
    rw [hfilter] at hc
    simp only [List.map_nil, List.flatten_nil] at hc
    dsimp only [searchPipeline]
    rw [if_neg hdne, hc]
    rfl

/-- C1 witness: a concrete one-failure dispatch whose surviving artifacts
sort successfully, and a concrete all-fail dispatch. -/
theorem search_isolates_connector_failures_witness :
    (∃ res called,
       searchPipeline [.notion, .figma] false (.ok none)
         (fun c => if c = .notion then .error () else .ok [artTimestamped])
         [.notion, .figma] "alarm" = .ok (res, called) ∧
       res.artifacts = [artTimestamped] ∧
       res.artifacts.Perm
         ((((dispatchSources [.notion, .figma] [.notion, .figma]).filter
             (connSucceeded (fun c => if c = .notion then .error ()
               else .ok [artTimestamped]))).map
             (connArtifacts (fun c => if c = .notion then .error ()
               else .ok [artTimestamped]))).flatten) ∧
       res.sources_searched =
         (dispatchSources [.notion, .figma] [.notion, .figma]).filter
           (connSucceeded (fun c => if c = .notion then .error ()
             else .ok [artTimestamped])) ∧
       res.sources_searched.length + 1 =
         (dispatchSources [.notion, .figma] [.notion, .figma]).length) ∧
    searchPipeline [.figma] true (.ok none) (fun _ => .error ())
      [.figma] "alarm" =
      .ok ({ query := "alarm", artifacts := [], sources_searched := [],
             total_results := 0, summary := some noMatchingSummary },
           false) := by
  constructor
  · exact search_isolates_connector_failures.2.1 [.notion, .figma] false
      (.ok none)
      (fun c => if c = .notion then .error () else .ok [artTimestamped])
      [.notion, .figma] "alarm" .notion [artTimestamped] (by rfl) (by rfl)
  · exact search_isolates_connector_failures.2.2 [.figma] true (.ok none)
      (fun _ => .error ()) [.figma] "alarm" (by decide) (fun c _ => rfl)

/-- C8 counterexample: the empty query submitted to the engine's search is
not rejected — SearchQuery imposes no length constraint, the query is
routed (the fallback routes it to every source), and a well-formed
SearchResult comes back instead of an invalid-input failure. -/
theorem empty_query_reaches_router_counterexample :
    engineSearch {} .failure (.ok none) (fun _ => .ok []) "" =
      .ok ({ query := "", artifacts := [], sources_searched := [],
             total_results := 0, summary := some noSourcesSummary }, false)
  ∧ (route_query ({} : Settings).is_azure_ai_configured .failure
        { query := "" }).1.target_apps = AppSource.all :=
  ⟨rfl, rfl⟩

/-- C8 (amended): the empty query is rejected by the HTTP presentation
layer's SearchRequest validation (min_length 1, max_length 1000), not by
the core — SearchQuery and engine search accept the empty string and
route it through the fallback without raising. -/
theorem empty_query_rejection_amended :
    (∀ q : String,
        searchRequestValidate q = none ↔ (q.length < 1 ∨ 1000 < q.length))
  ∧ searchRequestValidate "" = none
  ∧ engineSearch {} .failure (.ok none) (fun _ => .ok []) "" =
      .ok ({ query := "", artifacts := [], sources_searched := [],
             total_results := 0,
             summary := some noSourcesSummary }, false) := by
  refine ⟨fun q => ?_, rfl, rfl⟩
  rw [searchRequestValidate]
  by_cases h : 1 ≤ q.length ∧ q.length ≤ 1000
  · rw [if_pos h]
    constructor
    · intro hc
      cases hc
    · intro hc
      omega
  · rw [if_neg h]
    constructor
    · intro _
      omega
    · intro _
      rfl

/-- C9: the configured-connector set is fixed at construction — across any
sequence of search, get_artifact and test_connections calls,
get_configured_sources answers the same list, and get_artifact on a
source outside the set returns none leaving the state untouched. -/
theorem connector_set_immutable :
    (∀ (st : EngineState) (ops : List EngineOp),
        get_configured_sources (ops.foldl applyOp st) =
          get_configured_sources st)
  ∧ (∀ (st : EngineState) (g : AppSource → String → Option Artifact)
        (src : AppSource) (id : String),
        src ∉ st.connectors → getArtifactStep st g src id = (none, st)) := by
  constructor
  · intro st ops
    induction ops generalizing st with
    | nil => rfl
    | cons op ops ih =>
      rw [List.foldl_cons, applyOp_eq]
      exact ih st
  · intro st g src id h
    rw [getArtifactStep, if_neg h]

/-- C9 witness: a fresh engine with nothing configured — a search, an
artifact lookup and a connection test leave the connector set unchanged,
and the lookup for the unconfigured Figma source answers none. -/
theorem connector_set_immutable_witness :
    AppSource.figma ∉ (engineInit {}).connectors ∧
    getArtifactStep (engineInit {}) (fun _ _ => none) .figma "node-1" =
      (none, engineInit {}) ∧
    get_configured_sources
        (([.searchOp .failure (.ok none) (fun _ => .ok []) "q",
           .getArtifactOp (fun _ _ => none) .figma "node-1",
           .testConnectionsOp (fun _ => .ok true)] : List EngineOp).foldl
          applyOp (engineInit {})) =
      get_configured_sources (engineInit {}) :=
  ⟨by decide,
   connector_set_immutable.2 (engineInit {}) (fun _ _ => none) .figma
     "node-1" (by decide),
   connector_set_immutable.1 (engineInit {})
     [.searchOp .failure (.ok none) (fun _ => .ok []) "q",
      .getArtifactOp (fun _ _ => none) .figma "node-1",
      .testConnectionsOp (fun _ => .ok true)]⟩

theorem retryLoop_failed_result_start (f : Nat → AttemptOutcome) :
    ∀ (fuel a : Nat) (ls : Option Nat), 0 < fuel →
      (∀ j, j < fuel → isRetryStep (retryStep (a + j) (f (a + j))) = true) →
      (∀ j, j < fuel → f (a + j) ≠ .timeout) →
      (retryLoop f fuel a false ls).1 = .failedAfterRetries := by
  intro fuel
  cases fuel with
  | zero =>
    intro a ls h
    omega
  | succ n =>
    intro a ls _ hretry hnotime
    have h0 := hretry 0 (by omega)
    rw [Nat.add_zero] at h0
    have hnt0 := hnotime 0 (by omega)
    rw [Nat.add_zero] at hnt0
    have htail : ∀ j, j < n →
        isRetryStep (retryStep (a + 1 + j) (f (a + 1 + j))) = true := by
      intro j hj
      have := hretry (j + 1) (by omega)
      have harg : a + (j + 1) = a + 1 + j := by omega
      rwa [harg] at this
    have hnttail : ∀ j, j < n → f (a + 1 + j) ≠ .timeout := by
      intro j hj
      have := hnotime (j + 1) (by omega)
      have harg : a + (j + 1) = a + 1 + j := by omega
      rwa [harg] at this
    cases hstep : retryStep a (f a) with
    | ret s' => rw [hstep] at h0; cases h0
    | raiseStatusError s' => rw [hstep] at h0; cases h0
    | raiseValueError => rw [hstep] at h0; cases h0
    | passRetry s' =>
      rw [retryLoop, hstep]
      exact retryLoop_failed_result f n (a + 1) s' htail hnttail
    | sleepRetry w t b =>
      have hflags := retryStep_sleep_flags a (f a) w t b hstep
      have ht : t = false := by
        cases t with
        | false => rfl
        | true => exact absurd (hflags.1.mp rfl) hnt0
      obtain ⟨s', hb⟩ := hflags.2 ht
      subst ht
      subst hb
      rw [retryLoop, hstep]
      dsimp only
      exact retryLoop_failed_result f n (a + 1) s' htail hnttail

/-- C10 counterexample: a 429 response whose non-empty Retry-After header
does not parse as an integer makes the first attempt raise ValueError
instead of retrying after a backoff wait; and a 204 response neither
returns nor raises nor waits — the loop proceeds straight to the next
attempt with no sleep. -/
theorem request_with_retry_counterexample :
    requestWithRetry (fun _ => .resp 429 (some "tomorrow")) =
      (.valueError, 1, [])
  ∧ requestWithRetry
      (fun i => if i = 0 then .resp 204 none else .resp 200 none) =
      (.ok 200, 2, []) :=
  ⟨rfl, rfl⟩

/-- C10 (amended): the retry loop executes at most 3 attempts; an attempt
returns on status 200, raises immediately on a non-2xx non-retryable
status (or ValueError on a 429 whose Retry-After header is present,
non-empty and unparseable as an integer), retries after a backoff wait on
a 429 whose Retry-After is absent, empty (Python truthiness skips the
parse) or parseable, on a status ≥ 500, or on a timeout, and falls
through to the next attempt without waiting on a 2xx status other than
200; when all 3 attempts retry, the loop raises the last timeout
exception if any attempt timed out and an HTTP status error otherwise. -/
theorem request_with_retry_amended :
    (∀ f, (requestWithRetry f).2.1 ≤ 3)
  ∧ (∀ (i : Nat) (ra : Option String),
      retryStep i (.resp 200 ra) = .ret 200)
  ∧ (∀ i : Nat,
      retryStep i .timeout = .sleepRetry ((2 : Int) ^ i) true none)
  ∧ (∀ i : Nat,
      retryStep i (.resp 429 none) =
        .sleepRetry ((2 : Int) ^ i) false (some 429))
  ∧ (∀ i : Nat,
      retryStep i (.resp 429 (some "")) =
        .sleepRetry ((2 : Int) ^ i) false (some 429))
  ∧ (∀ (i : Nat) (s : String) (n : Int), pyIntOfString s = some n →
      retryStep i (.resp 429 (some s)) =
        .sleepRetry (max ((2 : Int) ^ i) n) false (some 429))
  ∧ (∀ (i : Nat) (s : String), s ≠ "" → pyIntOfString s = none →
      retryStep i (.resp 429 (some s)) = .raiseValueError)
  ∧ (∀ (i st : Nat) (ra : Option String), 500 ≤ st →
      retryStep i (.resp st ra) =
        .sleepRetry ((2 : Int) ^ i) false (some st))
  ∧ (∀ (i st : Nat) (ra : Option String),
      200 ≤ st → st < 300 → st ≠ 200 →
      retryStep i (.resp st ra) = .passRetry st)
  ∧ (∀ (i st : Nat) (ra : Option String),
      st ≠ 200 → st ≠ 429 → ¬(500 ≤ st) → ¬(200 ≤ st ∧ st < 300) →
      retryStep i (.resp st ra) = .raiseStatusError st)
  ∧ (∀ f, (∀ i, i < 3 → isRetryStep (retryStep i (f i)) = true) →
      (∃ i, i < 3 ∧ f i = .timeout) →
      (requestWithRetry f).1 = .timeoutError)
  ∧ (∀ f, (∀ i, i < 3 → isRetryStep (retryStep i (f i)) = true) →
      (∀ i, i < 3 → f i ≠ .timeout) →
      (requestWithRetry f).1 = .failedAfterRetries) := by
  refine ⟨?_, ?_, ?_, ?_, ?_, ?_, ?_, ?_, ?_, ?_, ?_, ?_⟩
  · intro f
    simpa using retryLoop_attempts_le f 3 0 false none
  · intro i ra
    rfl
  · intro i
    rfl
  · intro i
    rfl
  · intro i
    rfl
  · intro i s n h
    have hs : ¬ s = "" := by
      intro he
      subst he
      rw [show pyIntOfString "" = none from rfl] at h
      cases h
    simp [retryStep, hs, h]
  · intro i s hs h
    simp [retryStep, hs, h]
  · intro i st ra h
    have h1 : ¬ st = 200 := by omega
    have h2 : ¬ st = 429 := by omega
    simp [retryStep, h1, h2, h]
  · intro i st ra ha hb hc
    have h2 : ¬ st = 429 := by omega
    have h3 : ¬ 500 ≤ st := by omega
    simp [retryStep, hc, h2, h3, ha, hb]
  · intro i st ra h1 h2 h3 h4
    simp [retryStep, h1, h2, h3, h4]
  · intro f hall hex
    apply retryLoop_timeout_result f 3 0 false none
    · intro j hj
      simpa using hall j hj
    · obtain ⟨i, hi, ht⟩ := hex
      exact Or.inr ⟨i, hi, by simpa using ht⟩
  · intro f hall hnt
    apply retryLoop_failed_result_start f 3 0 none (by omega)
    · intro j hj
      simpa using hall j hj
    · intro j hj
      simpa using hnt j hj

/-- C10 witness: concrete instantiations — a parseable Retry-After of 7
seconds and an unparseable non-empty one ("tomorrow") on a first 429
attempt, and three straight timeouts ending in the re-raised timeout. -/
theorem request_with_retry_amended_witness :
    pyIntOfString "7" = some 7 ∧
    retryStep 0 (.resp 429 (some "7")) =
      .sleepRetry (max ((2 : Int) ^ 0) 7) false (some 429) ∧
    ("tomorrow" ≠ "" ∧ pyIntOfString "tomorrow" = none ∧
      retryStep 0 (.resp 429 (some "tomorrow")) = .raiseValueError) ∧
    (requestWithRetry (fun _ => .timeout)).2.1 ≤ 3 ∧
    (requestWithRetry (fun _ => .timeout)).1 = .timeoutError := by
  obtain ⟨hbound, _, _, _, _, hparse, hvalerr, _, _, _, htime, _⟩ :=
    request_with_retry_amended
  have h7 : pyIntOfString "7" = some 7 := by rfl
  have hne : "tomorrow" ≠ "" := by decide
  have hnone : pyIntOfString "tomorrow" = none := by rfl
  exact ⟨h7, hparse 0 "7" 7 h7, ⟨hne, hnone, hvalerr 0 "tomorrow" hne hnone⟩,
    hbound (fun _ => .timeout),
    htime (fun _ => .timeout) (fun i _ => rfl) ⟨0, by omega, rfl⟩⟩

end ArtifactSearch







